import Mathlib

/-!
# Verification of the Divar browser-automation core

A shallow embedding of `src/divar_automation.py` (and the two message-handler
branches of `src/bot.py` that feed it), together with theorems settling the
frozen claims about session management, the phone/OTP login flow, the
listing-creation pipeline and its failure diagnostics.

Python's implicit effects are made explicit:
* the module-level globals (`_context`, `_chat_ctx`) and the state file become
  an explicit `SysState` record threaded through every operation;
* every Playwright call is recorded in an `Action` trace, so "performs no
  navigation / no browser interaction" is the statement `trace = []`;
* page observations (which selectors match, which waits time out, what the
  login probe sees) are inputs, collected in per-operation environment records;
* Python exceptions become `Except PyError`: `PyError.timeout` models a raw
  `PlaywrightTimeoutError`, `PyError.runtime` models `RuntimeError msg`.
-/

namespace Divar

/-! ## Constants and selectors (module constants of divar_automation.py) -/

def DIVAR_NEW_URL : String := "https://divar.ir/new"

def DIVAR_MYDIVAR_URL : String := "https://divar.ir/my-divar"

def DIVAR_CITY_SLUG : String := "mashhad"

def DIVAR_STATE_PATH : String := "/tmp/divar_state.json"

def PHONE_INPUT : String := "input[name=\"mobile\"]"

def OTP_INPUT : String := "input[name=\"code\"]"

def SUBMIT_BTN : String := "button.auth-actions__submit-button"

def IMAGES_INPUT : String := "input[type=\"file\"][name=\"Images\"]"

def TITLE_INPUT : String := "input[name=\"Title\"]"

def DESC_INPUT : String := "textarea[name=\"Description\"]"

def NEXT_BTN : String := "button[type=\"submit\"]"

def CATEGORY_TITLE : String := "h2:has-text(\"انتخاب دستهٔ آگهی\")"

def CATEGORY_ITEM : String := "div[role=\"button\"].rawButton-W5tTZw"

def PRICE_INPUT : String := "input[name=\"price\"]"

def LOCATION_DETERMINE_BTN : String := "button.kt-action-field:has-text(تعیین)"

def FINAL_SUBMIT : String := "button[type=\"submit\"]:has-text(ثبت اطلاعات)"

def LOGOUT_BTN : String := "button.kt-fullwidth-link:has(p:has-text(خروج))"

def DEBUG_FOLDER : String := "/tmp/divar_debug"

/-! ## Digit normalization (`_normalize_digits`) -/

/-- Decimal-digit test used when modelling Python's `\d`.  Python's regex is
Unicode-aware; we cover the ASCII digits and the Arabic-script digit blocks
(U+0660–U+0669 and U+06F0–U+06F9), which are the decimal digits that can
realistically occur in this application's Persian-language inputs. -/
def isPyDigit (c : Char) : Bool :=
  c.isDigit || (0x660 ≤ c.toNat && c.toNat ≤ 0x669)
    || (0x6F0 ≤ c.toNat && c.toNat ≤ 0x6F9)

/-- `_normalize_digits(s)`: `re.sub(r"\D+", "", s or "")` — keep only digits. -/
def normalize_digits (s : String) : String :=
  String.mk (s.data.filter isPyDigit)

/-- Python's character slice `s[:n]`: the first `n` characters. -/
def pyTake (s : String) (n : Nat) : String :=
  String.mk (s.data.take n)

/-- Python's slice `s[n:]`: everything after the first `n` characters. -/
def pyDrop (s : String) (n : Nat) : String :=
  String.mk (s.data.drop n)

/-- Python's `s.startswith(pre)`. -/
def pyStartsWith (s pre : String) : Bool :=
  pre.data.isPrefixOf s.data

/-- Python's `s.strip()` (whitespace at both ends removed), on the character
level. -/
def pyStrip (s : String) : String :=
  String.mk (((s.data.dropWhile Char.isWhitespace).reverse.dropWhile
    Char.isWhitespace).reverse)

/-- The `+98 → 0` prefix rewrite applied to a digit-normalized phone, as it
appears both in `start_login` and in the front-end phone handler:
`if phone.startswith("98"): phone = "0" + phone[2:]`. -/
def rewrite98 (p : String) : String :=
  if pyStartsWith p "98" then "0" ++ pyDrop p 2 else p

/-! ## File system and state file (`_state_exists`) -/

/-- The part of the file system the module touches: the state file at
`DIVAR_STATE_PATH`.  `none` means the file is absent; `some n` means it exists
with size `n` bytes. -/
structure FileSys where
  stateSize : Option Nat
deriving DecidableEq, Repr

/-- `_state_exists()`: the file exists and its size exceeds 10 bytes. -/
def state_exists (fs : FileSys) : Bool :=
  match fs.stateSize with
  | none => false
  | some n => decide (n > 10)

/-! ## Actions and errors -/

/-- One observable browser / file-system side effect.  Every Playwright call
made by the module appends one of these to the operation's trace. -/
inductive Action where
  | launchBrowser
  | newContext (storage : Option Nat)
  | addCityCookie (city : String)
  | newPage (ctx : Nat)
  | goto (url : String) (timeoutMs : Nat)
  | waitTimeout (ms : Nat)
  | locatorCount (sel : String)
  | fill (sel val : String)
  | typeText (sel val : String)
  | click (sel : String)
  | pressKey (key : String)
  | waitForSelector (sel : String) (timeoutMs : Nat)
  | waitForDetached (sel : String) (timeoutMs : Nat)
  | waitForFunction (timeoutMs : Nat)
  | setInputFiles (sel : String) (paths : List String)
  | scrollIntoView (sel : String) (idx : Int)
  | clickNth (sel : String) (idx : Int)
  | clickLast (sel : String)
  | screenshot (path : String)
  | savePageHtml (path : String)
  | saveStorageState (path : String)
  | clearLocalStorage
  | clearSessionStorage
  | clearCookies
  | closeContext
  | closePage (id : Nat)
  | deleteFile (path : String)
deriving DecidableEq, Repr

/-- A Python exception escaping one of the module's functions.
`timeout` is a raw `PlaywrightTimeoutError`; `runtime` is `RuntimeError msg`. -/
inductive PyError where
  | timeout (ms : Nat)
  | runtime (msg : String)
deriving DecidableEq, Repr

/-- The text Python would interpolate for `{e}` in an f-string. -/
def PyError.text : PyError → String
  | .timeout ms => "Timeout " ++ toString ms ++ "ms exceeded."
  | .runtime msg => msg

/-- Whether an escaping error is a raw platform timeout. -/
def PyError.isTimeout : PyError → Bool
  | .timeout _ => true
  | .runtime _ => false

/-! ## Global runtime state -/

/-- The module-level mutable state of divar_automation.py:
the file system, the single global `_context` (identified by a numeric id once
created), a fresh-id counter, the set of created pages with their owning
context, which pages / contexts have been closed, and the per-chat page table
`_chat_ctx` (an entry `(c, none)` models `_chat_ctx[c]["page"] = None`). -/
structure SysState where
  fs : FileSys
  context : Option Nat
  nextId : Nat
  pages : List (Nat × Nat)
  closedPages : List Nat
  closedCtxs : List Nat
  chatPages : List (Int × Option Nat)
deriving DecidableEq, Repr

/-- Fresh process state over a given file system: no browser, no pages. -/
def initState (fs : FileSys) : SysState :=
  { fs := fs, context := none, nextId := 0, pages := [],
    closedPages := [], closedCtxs := [], chatPages := [] }

/-- Lookup in the `_chat_ctx` table. `none` = no dict for this chat yet. -/
def lookupChat : List (Int × Option Nat) → Int → Option (Option Nat)
  | [], _ => none
  | (k, v) :: t, c => if k = c then some v else lookupChat t c

/-- Update (or insert) the page entry of one chat. -/
def setChat : List (Int × Option Nat) → Int → Option Nat → List (Int × Option Nat)
  | [], c, v => [(c, v)]
  | (k, w) :: t, c, v => if k = c then (c, v) :: t else (k, w) :: setChat t c v

/-- Owning context of a page, if the page record exists. -/
def pageCtxOf (st : SysState) (pid : Nat) : Option Nat :=
  (st.pages.lookup pid)

/-- `page.is_closed()`: true when the page or its whole context was closed. -/
def pageClosed (st : SysState) (pid : Nat) : Bool :=
  st.closedPages.contains pid ||
    (match pageCtxOf st pid with
     | some c => st.closedCtxs.contains c
     | none => true)

/-- Result of an operation: its value, the updated global state, and the
trace of browser / file-system side effects it performed, in order. -/
structure Res (α : Type) where
  result : α
  state : SysState
  trace : List Action
deriving Repr

/-! ## `_ensure_browser` and `_get_page` -/

/-- `_ensure_browser()`: a no-op if the global context exists; otherwise
launches the browser and creates the ONE global context, loading the state
file as `storage_state` when `_state_exists()`, then sets the city cookie. -/
def ensure_browser (st : SysState) : Res Unit :=
  match st.context with
  | some _ => ⟨(), st, []⟩
  | none =>
      let ctxId := st.nextId
      let storage := if state_exists st.fs then st.fs.stateSize else none
      ⟨(), { st with
              context := some ctxId
              nextId := st.nextId + 1 },
        [.launchBrowser, .newContext storage, .addCityCookie DIVAR_CITY_SLUG]⟩

/-- `_get_page(chat_id)`: ensure the browser, then return the chat's page if
it exists and is not closed, else create a new page in the single global
context and record it for this chat. -/
def get_page (st : SysState) (chatId : Int) : Res Nat :=
  let r := ensure_browser st
  let st1 := r.state
  match lookupChat st1.chatPages chatId with
  | some (some pid) =>
      if pageClosed st1 pid then
        let ctxId := st1.context.getD 0
        let newPid := st1.nextId
        ⟨newPid,
          { st1 with
              nextId := st1.nextId + 1
              pages := (newPid, ctxId) :: st1.pages
              chatPages := setChat st1.chatPages chatId (some newPid) },
          r.trace ++ [.newPage ctxId]⟩
      else ⟨pid, st1, r.trace⟩
  | _ =>
      let ctxId := st1.context.getD 0
      let newPid := st1.nextId
      ⟨newPid,
        { st1 with
            nextId := st1.nextId + 1
            pages := (newPid, ctxId) :: st1.pages
            chatPages := setChat st1.chatPages chatId (some newPid) },
        r.trace ++ [.newPage ctxId]⟩

/-! ## `_save_state` and `debug_dump` -/

/-- `_save_state()`: if a context exists, write the storage state to the state
file (the byte size written, `savedSize`, is determined by the browser, so it
is an input here).  Failures are swallowed in the source; with the file system
modelled as reliable the write succeeds whenever a context exists. -/
def save_state (st : SysState) (savedSize : Nat) : Res Unit :=
  match st.context with
  | none => ⟨(), st, []⟩
  | some _ =>
      ⟨(), { st with fs := { stateSize := some savedSize } },
        [.saveStorageState DIVAR_STATE_PATH]⟩

/-- `debug_dump(page, step)`: screenshot + HTML snapshot named by step and
timestamp under `DEBUG_FOLDER`; on any capture failure returns `(None, None)`
and raises nothing.  `ts` is the wall-clock timestamp, `ok` whether capture
succeeded. -/
def debug_dump (stepName : String) (ts : Nat) (ok : Bool) :
    (Option String × Option String) × List Action :=
  if ok then
    let png := DEBUG_FOLDER ++ "/" ++ stepName ++ "_" ++ toString ts ++ ".png"
    let html := DEBUG_FOLDER ++ "/" ++ stepName ++ "_" ++ toString ts ++ ".html"
    ((some png, some html), [.screenshot png, .savePageHtml html])
  else ((none, none), [])

/-- Python's `str(x)` for the optional debug paths interpolated into the
pipeline failure message (`None` when capture failed). -/
def fmtOpt : Option String → String
  | some s => s
  | none => "None"

/-! ## `_is_logged_in` and `has_valid_session` -/

/-- What the DOM probe observes: whether the navigation to `/new` times out,
and the live counts of the phone-input and OTP-input locators there. -/
structure ProbeEnv where
  gotoTimesOut : Bool
  phoneCount : Nat
  otpCount : Nat
deriving DecidableEq, Repr

/-- `_is_logged_in(page)`: navigate to `/new` (60 s timeout), settle 1.2 s,
then: a phone input present → not logged in; an OTP input present → not
logged in; neither → logged in.  The navigation timeout escapes as a raw
`PlaywrightTimeoutError` (callers decide whether to catch it). -/
def is_logged_in (env : ProbeEnv) : Except PyError Bool × List Action :=
  if env.gotoTimesOut then
    (.error (.timeout 60000), [.goto DIVAR_NEW_URL 60000])
  else
    let pre := [Action.goto DIVAR_NEW_URL 60000, .waitTimeout 1200,
      .locatorCount PHONE_INPUT]
    if env.phoneCount > 0 then (.ok false, pre)
    else if env.otpCount > 0 then (.ok false, pre ++ [.locatorCount OTP_INPUT])
    else (.ok true, pre ++ [.locatorCount OTP_INPUT])

/-- `has_valid_session()`: if `_state_exists()` fails, return `False`
immediately (no browser work at all).  Otherwise ensure the browser, open a
scratch page, run the DOM probe (any exception → `False`), and always close
the scratch page. -/
def has_valid_session (st : SysState) (env : ProbeEnv) : Res Bool :=
  if state_exists st.fs = false then ⟨false, st, []⟩
  else
    let r := ensure_browser st
    let ctxId := r.state.context.getD 0
    let pid := r.state.nextId
    let st1 : SysState :=
      { r.state with
          nextId := r.state.nextId + 1
          pages := (pid, ctxId) :: r.state.pages }
    let (probe, ptr) := is_logged_in env
    let ok := match probe with | .ok b => b | .error _ => false
    let st2 := { st1 with closedPages := pid :: st1.closedPages }
    ⟨ok, st2, r.trace ++ [.newPage ctxId] ++ ptr ++ [.closePage pid]⟩

/-! ## `start_login` -/

/-- What `start_login` observes on the live page: navigation outcome, the
locator counts of the title / phone / OTP fields after loading `/new`,
whether the submit button ever enables within 15 s, whether the OTP field
appears within 60 s of submitting, and the debug-dump inputs for the
unexpected-page branch. -/
structure LoginEnv where
  gotoTimesOut : Bool
  titleCount : Nat
  phoneCount : Nat
  otpCount : Nat
  submitEnables : Bool
  otpAppears : Bool
  dumpTs : Nat
  dumpOk : Bool
deriving DecidableEq, Repr

/-- `start_login(chat_id, phone)`: get the chat's page, normalize the phone
(keep digits; rewrite a leading `98` to `0`), navigate to `/new`, and then:
already logged in (title field, no phone field) → return; OTP field already
present → return; phone field present → fill it, wait for the submit button
to enable (15 s, timeout caught and ignored), click submit and wait 60 s for
the OTP field (this wait's timeout escapes raw); otherwise dump diagnostics
and raise `RuntimeError`.  Note: the function never validates the phone
format — it fills whatever the normalization produced. -/
def start_login (st : SysState) (chatId : Int) (phone : String) (env : LoginEnv) :
    Res (Except PyError Unit) :=
  let rp := get_page st chatId
  let st1 := rp.state
  let phone_digits := rewrite98 (normalize_digits phone)
  if env.gotoTimesOut then
    ⟨.error (.timeout 60000), st1, rp.trace ++ [.goto DIVAR_NEW_URL 60000]⟩
  else
    let t0 := rp.trace ++ [Action.goto DIVAR_NEW_URL 60000, .waitTimeout 1500]
    let tChk1 := [Action.locatorCount TITLE_INPUT] ++
      (if env.titleCount > 0 then [Action.locatorCount PHONE_INPUT] else [])
    if env.titleCount > 0 && env.phoneCount = 0 then
      ⟨.ok (), st1, t0 ++ tChk1⟩
    else
      let tChk2 := tChk1 ++ [Action.locatorCount OTP_INPUT]
      if env.otpCount > 0 then
        ⟨.ok (), st1, t0 ++ tChk2⟩
      else
        let tChk3 := tChk2 ++ [Action.locatorCount PHONE_INPUT]
        if env.phoneCount > 0 then
          let tFill := t0 ++ tChk3 ++ [Action.fill PHONE_INPUT phone_digits,
            .waitForFunction 15000, .click SUBMIT_BTN,
            .waitForSelector OTP_INPUT 60000]
          if env.otpAppears then ⟨.ok (), st1, tFill⟩
          else ⟨.error (.timeout 60000), st1, tFill⟩
        else
          let (_, dumpTr) := debug_dump "login_unexpected_page" env.dumpTs env.dumpOk
          ⟨.error (.runtime
              "صفحه ورود لود نشد یا دیوار صفحه متفاوتی نمایش داد (احتمال anti-bot)."),
            st1, t0 ++ tChk3 ++ dumpTr⟩

/-! ## `verify_otp` -/

/-- What `verify_otp` observes: whether the OTP field is present within the
initial 60 s wait, whether the submit button enables within 25 s (if not, the
Enter-key fallback is used), whether the OTP field detaches within 45 s
(timeout caught either way), the final login probe's observations, and the
size of the storage-state file written on success. -/
structure OtpEnv where
  otpFieldTimesOut : Bool
  submitEnables : Bool
  otpDetaches : Bool
  probe : ProbeEnv
  savedSize : Nat
deriving DecidableEq, Repr

/-- `verify_otp(chat_id, code)`: get the chat's page, keep the first six
digits of the code, wait for the OTP field (60 s — a timeout here escapes
raw), clear it and type the truncated code, submit (click when the button
enables, else press Enter), wait for the field to detach (timeout swallowed),
then re-probe login state (any probe exception → not logged in).  On success
persist the storage state and return `True`; otherwise return `False` without
persisting.  A rejected code is the `False` return, never an exception. -/
def verify_otp (st : SysState) (chatId : Int) (code : String) (env : OtpEnv) :
    Res (Except PyError Bool) :=
  let rp := get_page st chatId
  let st1 := rp.state
  let code_digits := pyTake (normalize_digits code) 6
  if env.otpFieldTimesOut then
    ⟨.error (.timeout 60000), st1, rp.trace ++ [.waitForSelector OTP_INPUT 60000]⟩
  else
    let t0 := rp.trace ++ [Action.waitForSelector OTP_INPUT 60000,
      .fill OTP_INPUT "", .typeText OTP_INPUT code_digits]
    let t1 := t0 ++ [Action.waitForFunction 25000] ++
      (if env.submitEnables then [Action.click SUBMIT_BTN] else [Action.pressKey "Enter"])
    let t2 := t1 ++ [Action.waitForDetached OTP_INPUT 45000]
    let (probeRes, ptr) := is_logged_in env.probe
    let ok := match probeRes with | .ok b => b | .error _ => false
    if ok then
      let rs := save_state st1 env.savedSize
      ⟨.ok true, rs.state, t2 ++ ptr ++ rs.trace⟩
    else
      ⟨.ok false, st1, t2 ++ ptr⟩

/-! ## `logout` -/

/-- What `logout` observes: whether opening `/my-divar` times out (the error
is caught and logged) and the live count of the logout button there. -/
structure LogoutEnv where
  gotoTimesOut : Bool
  logoutBtnCount : Nat
deriving DecidableEq, Repr

/-- `logout(chat_id)`: best-effort UI logout (navigate to `/my-divar`, click
the logout button if present), clear local/session storage and cookies, close
the global context, set the `_context` global to `None`, delete the state
file if it exists, clear this chat's page handle, and return `True`.  Every
intermediate failure is caught and logged, so completion and the `True`
return are unconditional. -/
def logout (st : SysState) (chatId : Int) (env : LogoutEnv) : Res Bool :=
  let rp := get_page st chatId
  let st1 := rp.state
  let tGoto := if env.gotoTimesOut then [Action.goto DIVAR_MYDIVAR_URL 60000]
    else [Action.goto DIVAR_MYDIVAR_URL 60000, .waitTimeout 1200]
  let tBtn := [Action.locatorCount LOGOUT_BTN] ++
    (if env.logoutBtnCount > 0 then [Action.clickNth LOGOUT_BTN 0, .waitTimeout 1000]
     else [])
  let tClear := [Action.clearLocalStorage, .clearSessionStorage, .clearCookies]
  let ctxId := st1.context.getD 0
  let st2 : SysState :=
    { st1 with
        context := none
        closedCtxs := ctxId :: st1.closedCtxs }
  let delNeeded := st2.fs.stateSize.isSome
  let st3 : SysState := if delNeeded then { st2 with fs := ⟨none⟩ } else st2
  let tDel := if delNeeded then [Action.deleteFile DIVAR_STATE_PATH] else []
  let st4 : SysState := { st3 with chatPages := setChat st3.chatPages chatId none }
  ⟨true, st4, rp.trace ++ tGoto ++ tBtn ++ tClear ++ [.closeContext] ++ tDel⟩

/-! ## `_pick_category_from_list` -/

/-- What category selection observes: whether the first category item appears
within 60 s, and the live count of category items at selection time. -/
structure CatEnv where
  waitTimesOut : Bool
  count : Nat
deriving DecidableEq, Repr

/-- `_pick_category_from_list(page, category_index)`: wait for the category
items (60 s), read the live count, raise on an empty list, raise on an index
outside `0 .. count-1`, otherwise scroll to and click exactly the requested
index.  There is no clamping. -/
def pick_category_from_list (env : CatEnv) (category_index : Int) :
    Except PyError Unit × List Action :=
  if env.waitTimesOut then
    (.error (.timeout 60000), [.waitForSelector CATEGORY_ITEM 60000])
  else
    let t0 := [Action.waitForSelector CATEGORY_ITEM 60000, .locatorCount CATEGORY_ITEM]
    if env.count ≤ 0 then (.error (.runtime "لیست دسته‌ها خالیه."), t0)
    else if category_index < 0 || (env.count : Int) ≤ category_index then
      (.error (.runtime ("category_index نامعتبره. بازه: 0.." ++ toString (env.count - 1))), t0)
    else
      (.ok (), t0 ++ [.scrollIntoView CATEGORY_ITEM category_index,
        .clickNth CATEGORY_ITEM category_index])

/-! ## `create_post_on_divar` -/

/-- The f-string the pipeline's `except` block raises: the failure message
embedding the stage name, the underlying error text, and the two debug
artifact paths. -/
def stagedMessage (step errText png html : String) : String :=
  "ثبت آگهی شکست خورد.\nمرحله: " ++ step ++ "\nخطا: " ++ errText ++
    "\nDebug PNG: " ++ png ++ "\nDebug HTML: " ++ html

/-- The pipeline's `except` block: capture diagnostics for the failing stage,
then re-raise a `RuntimeError` whose message embeds the stage and artifact
paths. -/
def pipelineFail (st : SysState) (t : List Action) (step : String) (e : PyError)
    (ts : Nat) (dumpOk : Bool) : Res (Except PyError String) :=
  let (paths, dumpTr) := debug_dump step ts dumpOk
  ⟨.error (.runtime (stagedMessage step e.text (fmtOpt paths.1) (fmtOpt paths.2))),
    st, t ++ dumpTr⟩

/-- The inline category-selection block of the pipeline: when the category
list is shown, run `_pick_category_from_list` (its error propagates to the
enclosing stage) and settle briefly on success; otherwise do nothing. -/
def catStep (env : CatEnv) (shown : Bool) (ci : Int) (waitMs : Nat) :
    Except PyError Unit × List Action :=
  if shown then
    match pick_category_from_list env ci with
    | (.error e, ctr) => (.error e, ctr)
    | (.ok _, ctr) => (.ok (), ctr ++ [Action.waitTimeout waitMs])
  else (.ok (), [])

/-- What the listing pipeline observes along its stages: the login probe used
by the `has_valid_session` precondition, navigation outcome, the category
page shown first (title count + live item list), the appearance of the
images / title / description / price controls, the resolution of the
after-next wait, the deferred category list, the location-unset button count,
the final-submit button count, the saved state size, and debug-dump inputs. -/
structure PostEnv where
  probe : ProbeEnv
  gotoTimesOut : Bool
  catTitleCount : Nat
  catFirst : CatEnv
  imagesInputAppears : Bool
  titleAppears : Bool
  descAppears : Bool
  afterNextResolves : Bool
  catItemCount2 : Nat
  cat2 : CatEnv
  priceAppears : Bool
  locationBtnCount : Nat
  finalBtnCount : Nat
  savedSize : Nat
  dumpTs : Nat
  dumpOk : Bool
deriving DecidableEq, Repr

/-- One guarded stage of the pipeline (the body of the `try` with the current
`step` name): `act` is the stage's outcome together with the browser actions
it performed; on an exception the enclosing handler captures diagnostics and
re-raises the staged message (over the actions so far, `acc`, plus the
stage's own); on success the rest of the pipeline `k` runs with the extended
action history. -/
def stageRun (stA : SysState) (ts : Nat) (dumpOk : Bool) (stp : String)
    (acc : List Action) (act : Except PyError Unit × List Action)
    (k : List Action → Res (Except PyError String)) : Res (Except PyError String) :=
  match act with
  | (.error e, tr) => pipelineFail stA (acc ++ tr) stp e ts dumpOk
  | (.ok _, tr) => k (acc ++ tr)

/-- `create_post_on_divar(...)`: requires a valid session (checked first —
that failure is a bare `RuntimeError`, raised before the staged `try`), then
runs the staged pipeline: open `/new`; pick the category if the category page
shows first; require a non-empty image list and upload it; fill title and
description; advance and wait for the next screen; pick the category if the
list shows now; fill the price; fail if location is still unset; advance;
final submit; persist the session.  Any stage failure is wrapped by
`pipelineFail` with the current stage name. -/
def create_post_on_divar (st : SysState) (env : PostEnv) (category_index : Int)
    (title description price : String) (image_paths : Option (List String))
    (chat_id : Int) : Res (Except PyError String) :=
  let rp := get_page st chat_id
  let hv := has_valid_session rp.state env.probe
  let stA := hv.state
  if hv.result = false then
    ⟨.error (.runtime "لاگین نیستی. اول /login کن."), stA, rp.trace ++ hv.trace⟩
  else
    stageRun stA env.dumpTs env.dumpOk "open_new" (rp.trace ++ hv.trace)
      (if env.gotoTimesOut then (.error (.timeout 60000), [.goto DIVAR_NEW_URL 60000])
       else (.ok (), [.goto DIVAR_NEW_URL 60000, .waitTimeout 1500])) fun t1 =>
    stageRun stA env.dumpTs env.dumpOk "maybe_category_first" t1
      (let tCatChk := [Action.locatorCount CATEGORY_TITLE] ++
         (if env.catTitleCount > 0 then [Action.locatorCount CATEGORY_ITEM] else [])
       let cs := catStep env.catFirst (env.catTitleCount > 0 && env.catFirst.count > 0)
         category_index 1200
       (cs.1, tCatChk ++ cs.2)) fun t2 =>
    stageRun stA env.dumpTs env.dumpOk "upload_image" t2
      (if image_paths.getD [] = [] then
         (.error (.runtime "عکس اجباریه؛ image_paths خالیه."), [])
       else if env.imagesInputAppears = false then
         (.error (.timeout 60000), [.waitForSelector IMAGES_INPUT 60000])
       else
         (.ok (), [.waitForSelector IMAGES_INPUT 60000,
           .setInputFiles IMAGES_INPUT (image_paths.getD []), .waitTimeout 1500])) fun t3 =>
    stageRun stA env.dumpTs env.dumpOk "fill_title" t3
      (if env.titleAppears = false then
         (.error (.timeout 60000), [.waitForSelector TITLE_INPUT 60000])
       else
         (.ok (), [.waitForSelector TITLE_INPUT 60000,
           .fill TITLE_INPUT (pyStrip title)])) fun t4 =>
    stageRun stA env.dumpTs env.dumpOk "fill_description" t4
      (if env.descAppears = false then
         (.error (.timeout 60000), [.waitForSelector DESC_INPUT 60000])
       else
         (.ok (), [.waitForSelector DESC_INPUT 60000,
           .fill DESC_INPUT (pyStrip description)])) fun t5 =>
    stageRun stA env.dumpTs env.dumpOk "wait_after_next_1"
      (t5 ++ [Action.click NEXT_BTN, .waitTimeout 1500])
      (if env.afterNextResolves = false then
         (.error (.runtime "بعد از «بعدی» هیچ صفحه مورد انتظار لود نشد (ممکن است فیلد اجباری یا خطا وجود داشته باشد)."),
           [.waitForFunction 60000])
       else (.ok (), [.waitForFunction 60000])) fun t7 =>
    stageRun stA env.dumpTs env.dumpOk "pick_category_if_list"
      (t7 ++ [Action.locatorCount CATEGORY_ITEM])
      (catStep env.cat2 (env.catItemCount2 > 0) category_index 1500) fun t8 =>
    stageRun stA env.dumpTs env.dumpOk "fill_price" t8
      (if env.priceAppears = false then
         (.error (.timeout 60000), [.waitForSelector PRICE_INPUT 60000])
       else
         (.ok (), [.waitForSelector PRICE_INPUT 60000,
           .fill PRICE_INPUT "", .typeText PRICE_INPUT (pyStrip price)])) fun t9 =>
    stageRun stA env.dumpTs env.dumpOk "location_check" t9
      (if env.locationBtnCount > 0 then
         (.error (.runtime "مکان آگهی هنوز روی «تعیین» است (باید ست شود)."),
           [.locatorCount LOCATION_DETERMINE_BTN])
       else (.ok (), [.locatorCount LOCATION_DETERMINE_BTN])) fun t10 =>
    let t11 := t10 ++ [Action.click NEXT_BTN, .waitTimeout 1500,
        Action.locatorCount FINAL_SUBMIT] ++
      (if env.finalBtnCount > 0 then [Action.click FINAL_SUBMIT]
       else [Action.clickLast NEXT_BTN]) ++ [Action.waitTimeout 2500]
    let rs := save_state stA env.savedSize
    ⟨.ok "✅ ثبت انجام شد (اگر دیوار بررسی کند ممکن است انتشار با تاخیر باشد).",
      rs.state, t11 ++ rs.trace⟩

/-! ## bot.py: the two free-text handler branches that feed the core

The chat front-end (`src/bot.py`, `handle_text`) sits between the end user
and the automation module.  In the `"phone"` step it normalizes and validates
the phone and only calls `start_login` when valid; in the `"otp"` step it
truncates to six digits and only calls `verify_otp` when exactly six digits
remain.  Invalid inputs are answered with an error reply and no core call. -/

/-- A call the front-end makes into divar_automation.py. -/
inductive BotCall where
  | startLoginCall (chatId : Int) (phone : String)
  | verifyOtpCall (chatId : Int) (code : String)
deriving DecidableEq, Repr

/-- bot.py `handle_text`, `step == "phone"` branch: strip the message, keep
digits, rewrite a leading `98` to `0`, and require an 11-character result
starting with `09`; on failure reply with the invalid-number message and make
no core call (hence no browser interaction). -/
def handle_phone_message (chatId : Int) (text : String) : List String × Option BotCall :=
  let phone := rewrite98 (normalize_digits (pyStrip text))
  if pyStartsWith phone "09" = false || phone.length ≠ 11 then
    (["❌ شماره معتبر نیست. مثال: 09351234567"], none)
  else
    (["در حال درخواست کد..."], some (.startLoginCall chatId phone))

/-- bot.py `handle_text`, `step == "otp"` branch: strip the message, keep the
first six digits, and require exactly six; on failure reply with the
six-digits message and make no core call. -/
def handle_otp_message (chatId : Int) (text : String) : List String × Option BotCall :=
  let code := pyTake (normalize_digits (pyStrip text)) 6
  if code.length ≠ 6 then (["❌ کد باید ۶ رقم باشه."], none)
  else (["در حال تایید..."], some (.verifyOtpCall chatId code))

/-! ## Helper lemmas -/

/-- `ensure_browser` never touches the state file. -/
lemma ensure_browser_fs (st : SysState) : (ensure_browser st).state.fs = st.fs := by
  unfold ensure_browser
  cases st.context <;> rfl

/-- `_get_page` never touches the state file. -/
lemma get_page_fs (st : SysState) (c : Int) : (get_page st c).state.fs = st.fs := by
  unfold get_page
  rcases h : lookupChat (ensure_browser st).state.chatPages c with _ | ⟨_ | pid⟩ <;>
    simp [h, ensure_browser_fs] <;>
    split <;> simp [ensure_browser_fs]

/-- `_get_page` performs no state-file write. -/
lemma get_page_no_save (st : SysState) (c : Int) (p : String) :
    Action.saveStorageState p ∉ (get_page st c).trace := by
  have hens : ∀ q, Action.saveStorageState q ∉ (ensure_browser st).trace := by
    intro q
    unfold ensure_browser
    cases st.context <;> simp
  unfold get_page
  rcases h : lookupChat (ensure_browser st).state.chatPages c with _ | ⟨_ | pid⟩ <;>
    simp [h, hens] <;> split <;> simp [hens, hens p]

/-- The DOM probe performs no state-file write. -/
lemma is_logged_in_no_save (env : ProbeEnv) (p : String) :
    Action.saveStorageState p ∉ (is_logged_in env).2 := by
  unfold is_logged_in
  split_ifs <;> simp

/-- Updating a chat's entry makes it the looked-up value. -/
lemma lookupChat_setChat (l : List (Int × Option Nat)) (c : Int) (v : Option Nat) :
    lookupChat (setChat l c v) c = some v := by
  induction l with
  | nil => simp [setChat, lookupChat]
  | cons hd t ih =>
      obtain ⟨k, w⟩ := hd
      by_cases hk : k = c <;> simp [setChat, lookupChat, hk, ih]

/-- The stage name and both artifact paths are substrings of the pipeline
failure message. -/
lemma stagedMessage_embeds (step e p h : String) :
    step.toList <:+: (stagedMessage step e p h).toList ∧
    p.toList <:+: (stagedMessage step e p h).toList ∧
    h.toList <:+: (stagedMessage step e p h).toList := by
  refine ⟨⟨"ثبت آگهی شکست خورد.\nمرحله: ".toList,
      ("\nخطا: " ++ e ++ "\nDebug PNG: " ++ p ++ "\nDebug HTML: " ++ h).toList, ?_⟩,
    ⟨("ثبت آگهی شکست خورد.\nمرحله: " ++ step ++ "\nخطا: " ++ e ++ "\nDebug PNG: ").toList,
      ("\nDebug HTML: " ++ h).toList, ?_⟩,
    ⟨("ثبت آگهی شکست خورد.\nمرحله: " ++ step ++ "\nخطا: " ++ e ++ "\nDebug PNG: " ++ p
        ++ "\nDebug HTML: ").toList, [], ?_⟩⟩ <;>
    simp [stagedMessage, String.toList, String.data_append]

/-- The fast path of `has_valid_session` as an equation: with no (usable)
state file the call is pure. -/
lemma has_valid_session_no_state (st : SysState) (env : ProbeEnv)
    (h : state_exists st.fs = false) :
    has_valid_session st env = ⟨false, st, []⟩ := by
  simp [has_valid_session, h]

/-- `_get_page` leaves the global context exactly as `_ensure_browser` made it. -/
lemma get_page_context_eq (st : SysState) (c : Int) :
    (get_page st c).state.context = (ensure_browser st).state.context := by
  unfold get_page
  rcases h : lookupChat (ensure_browser st).state.chatPages c with _ | ⟨_ | pid⟩ <;>
    simp [h] <;> split <;> simp

/-- After `_ensure_browser` the global context always exists. -/
lemma ensure_browser_context_isSome (st : SysState) :
    ((ensure_browser st).state.context).isSome = true := by
  unfold ensure_browser
  rcases h : st.context with _ | ctx <;> simp [h]

/-- After `_get_page` the global context always exists. -/
lemma get_page_context_isSome (st : SysState) (c : Int) :
    ((get_page st c).state.context).isSome = true := by
  rw [get_page_context_eq]
  exact ensure_browser_context_isSome st

/-- The unconditional effects of `logout`: it returns `True`, the state file
is gone, the global context is cleared, and the chat's page handle is reset. -/
lemma logout_final (st : SysState) (chatId : Int) (env : LogoutEnv) :
    (logout st chatId env).result = true ∧
    (logout st chatId env).state.fs.stateSize = none ∧
    (logout st chatId env).state.context = none ∧
    lookupChat (logout st chatId env).state.chatPages chatId = some none := by
  have hfs := get_page_fs st chatId
  refine ⟨rfl, ?_, ?_, ?_⟩
  · simp only [logout, hfs]
    rcases hs : st.fs.stateSize with _ | n <;> simp [hs]
  · simp only [logout]
    split <;> rfl
  · simp only [logout]
    split <;> simp [lookupChat_setChat]

/-- In a state with no context, no page entry for the chat, and no usable
state file, `_get_page` behaves as first use: it launches the browser,
creates a context with NO storage state, and opens a fresh page there. -/
lemma get_page_first_use (st : SysState) (chatId : Int)
    (hctx : st.context = none)
    (hchat : lookupChat st.chatPages chatId = some none)
    (hfs : state_exists st.fs = false) :
    (get_page st chatId).trace =
      [.launchBrowser, .newContext none, .addCityCookie DIVAR_CITY_SLUG,
        .newPage st.nextId] ∧
    pageCtxOf (get_page st chatId).state (get_page st chatId).result
      = some st.nextId := by
  constructor <;>
    simp [get_page, ensure_browser, hctx, hchat, hfs, pageCtxOf, List.lookup]

/-- The DOM probe result when the probe sees neither login prompt. -/
lemma is_logged_in_ok_true (env : ProbeEnv) (h1 : env.gotoTimesOut = false)
    (h2 : env.phoneCount = 0) (h3 : env.otpCount = 0) :
    is_logged_in env = (.ok true, [.goto DIVAR_NEW_URL 60000, .waitTimeout 1200,
      .locatorCount PHONE_INPUT, .locatorCount OTP_INPUT]) := by
  simp [is_logged_in, h1, h2, h3]

/-! ## Bounded-timeout machinery -/

/-- The explicit timeout (ms) carried by a trace action, when the action is a
navigation or a DOM-condition wait. -/
def Action.waitBound : Action → Option Nat
  | .goto _ t => some t
  | .waitForSelector _ t => some t
  | .waitForDetached _ t => some t
  | .waitForFunction t => some t
  | _ => none

/-- Every navigation / DOM wait in the trace carries an explicit positive
timeout of at most 60 s: no unbounded wait appears. -/
def boundedWaits (t : List Action) : Bool :=
  t.all fun a =>
    match a.waitBound with
    | some ms => decide (0 < ms) && decide (ms ≤ 60000)
    | none => true

lemma boundedWaits_append (a b : List Action) :
    boundedWaits (a ++ b) = (boundedWaits a && boundedWaits b) := by
  simp [boundedWaits, List.all_append]

lemma boundedWaits_ensure_browser (st : SysState) :
    boundedWaits (ensure_browser st).trace = true := by
  unfold ensure_browser
  rcases h : st.context with _ | c <;> simp [h, boundedWaits, Action.waitBound]

lemma boundedWaits_get_page (st : SysState) (c : Int) :
    boundedWaits (get_page st c).trace = true := by
  have hens := boundedWaits_ensure_browser st
  have hnew : ∀ k : Nat, boundedWaits [Action.newPage k] = true := by
    intro k
    simp [boundedWaits, Action.waitBound]
  unfold get_page
  rcases h : lookupChat (ensure_browser st).state.chatPages c with _ | ⟨_ | pid⟩ <;>
    simp only [h] <;>
    first
      | simp [boundedWaits_append, hens, hnew]
      | (split <;> simp [boundedWaits_append, hens, hnew])

lemma boundedWaits_is_logged_in (env : ProbeEnv) :
    boundedWaits (is_logged_in env).2 = true := by
  unfold is_logged_in
  split_ifs <;> simp [boundedWaits, Action.waitBound]

lemma boundedWaits_save_state (st : SysState) (n : Nat) :
    boundedWaits (save_state st n).trace = true := by
  unfold save_state
  rcases h : st.context with _ | c <;> simp [h, boundedWaits, Action.waitBound]

lemma boundedWaits_has_valid_session (st : SysState) (env : ProbeEnv) :
    boundedWaits (has_valid_session st env).trace = true := by
  rcases hpr : is_logged_in env with ⟨res, ptr⟩
  have hp := boundedWaits_is_logged_in env
  rw [hpr] at hp
  have hens := boundedWaits_ensure_browser st
  unfold has_valid_session
  split_ifs <;>
    simp only [hpr] <;>
    simp_all [boundedWaits_append, Bool.and_eq_true, boundedWaits, Action.waitBound]

lemma boundedWaits_start_login (st : SysState) (c : Int) (phone : String)
    (env : LoginEnv) : boundedWaits (start_login st c phone env).trace = true := by
  unfold start_login
  rcases hd : debug_dump "login_unexpected_page" env.dumpTs env.dumpOk with ⟨paths, dtr⟩
  have hdb : boundedWaits dtr = true := by
    have : boundedWaits (debug_dump "login_unexpected_page" env.dumpTs env.dumpOk).2
        = true := by
      unfold debug_dump
      split_ifs <;> simp [boundedWaits, Action.waitBound]
    rw [hd] at this
    exact this
  have hgp := boundedWaits_get_page st c
  split_ifs <;>
    simp only [hd] <;>
    simp_all [boundedWaits_append, Bool.and_eq_true, boundedWaits, Action.waitBound]

lemma boundedWaits_verify_otp (st : SysState) (c : Int) (code : String)
    (env : OtpEnv) : boundedWaits (verify_otp st c code env).trace = true := by
  rcases hpr : is_logged_in env.probe with ⟨res, ptr⟩
  have hp := boundedWaits_is_logged_in env.probe
  rw [hpr] at hp
  have hgp := boundedWaits_get_page st c
  have hss := boundedWaits_save_state (get_page st c).state env.savedSize
  unfold verify_otp
  simp only [hpr]
  rcases res with e | b
  · split_ifs <;>
      simp_all [boundedWaits_append, Bool.and_eq_true, boundedWaits, Action.waitBound]
  · rcases b with _ | _ <;>
      (split_ifs <;>
        simp_all [boundedWaits_append, Bool.and_eq_true, boundedWaits, Action.waitBound])

lemma boundedWaits_pick_category (env : CatEnv) (idx : Int) :
    boundedWaits (pick_category_from_list env idx).2 = true := by
  unfold pick_category_from_list
  split_ifs <;> simp [boundedWaits, Action.waitBound]

lemma boundedWaits_debug_dump (s : String) (ts : Nat) (ok : Bool) :
    boundedWaits (debug_dump s ts ok).2 = true := by
  unfold debug_dump
  split_ifs <;> simp [boundedWaits, Action.waitBound]

lemma boundedWaits_pipelineFail (st : SysState) (t : List Action) (step : String)
    (e : PyError) (ts : Nat) (ok : Bool) (h : boundedWaits t = true) :
    boundedWaits (pipelineFail st t step e ts ok).trace = true := by
  rcases hd : debug_dump step ts ok with ⟨paths, dtr⟩
  have hdb := boundedWaits_debug_dump step ts ok
  rw [hd] at hdb
  simp [pipelineFail, hd, boundedWaits_append, h, hdb]

lemma boundedWaits_catStep (env : CatEnv) (b : Bool) (ci : Int) (w : Nat) :
    boundedWaits (catStep env b ci w).2 = true := by
  have hp := boundedWaits_pick_category env ci
  unfold catStep
  rcases hpc : pick_category_from_list env ci with ⟨r, tr⟩
  rw [hpc] at hp
  rcases b <;> rcases r <;>
    simp_all [boundedWaits_append, boundedWaits, Action.waitBound]

/-- The pipeline's failure wrapper always reports a `RuntimeError` whose
message is the staged message. -/
lemma pipelineFail_result (st : SysState) (t : List Action) (stp : String)
    (e : PyError) (ts : Nat) (ok : Bool) :
    (pipelineFail st t stp e ts ok).result =
      .error (.runtime (stagedMessage stp e.text
        (fmtOpt (debug_dump stp ts ok).1.1) (fmtOpt (debug_dump stp ts ok).1.2))) := by
  rcases hd : debug_dump stp ts ok with ⟨paths, dtr⟩
  simp [pipelineFail, hd]

/-- A pipeline stage never surfaces a raw timeout: its failure is always the
staged `RuntimeError`; and its success just runs the rest. -/
lemma stageRun_no_raw (stA : SysState) (ts : Nat) (ok : Bool) (stp : String)
    (acc : List Action) (act : Except PyError Unit × List Action)
    (k : List Action → Res (Except PyError String)) (ms : Nat)
    (hk : ∀ t, (k t).result ≠ .error (.timeout ms)) :
    (stageRun stA ts ok stp acc act k).result ≠ .error (.timeout ms) := by
  rcases act with ⟨r, tr⟩
  rcases r with e | u <;> simp [stageRun, pipelineFail_result, hk]

/-- A pipeline stage preserves the bounded-waits property of the trace. -/
lemma stageRun_bounded (stA : SysState) (ts : Nat) (ok : Bool) (stp : String)
    (acc : List Action) (act : Except PyError Unit × List Action)
    (k : List Action → Res (Except PyError String))
    (hacc : boundedWaits acc = true) (hact : boundedWaits act.2 = true)
    (hk : ∀ t, boundedWaits t = true → boundedWaits (k t).trace = true) :
    boundedWaits (stageRun stA ts ok stp acc act k).trace = true := by
  rcases act with ⟨r, tr⟩
  have htr : boundedWaits tr = true := hact
  have hacctr : boundedWaits (acc ++ tr) = true := by
    rw [boundedWaits_append, hacc, htr]
    rfl
  rcases r with e | u
  · simpa [stageRun] using boundedWaits_pipelineFail stA (acc ++ tr) stp e ts ok hacctr
  · simpa [stageRun] using hk (acc ++ tr) hacctr

/-- Every failure of the listing pipeline is a `RuntimeError`: a raw
`PlaywrightTimeoutError` never escapes `create_post_on_divar`. -/
lemma create_post_no_raw_timeout (st : SysState) (env : PostEnv) (ci : Int)
    (ti de pr : String) (imgs : Option (List String)) (c : Int) (ms : Nat) :
    (create_post_on_divar st env ci ti de pr imgs c).result ≠
      .error (.timeout ms) := by
  unfold create_post_on_divar
  by_cases hres : (has_valid_session (get_page st c).state env.probe).result = false
  · simp only [if_pos hres]
    simp
  · simp only [if_neg hres]
    apply stageRun_no_raw
    intro t1
    apply stageRun_no_raw
    intro t2
    apply stageRun_no_raw
    intro t3
    apply stageRun_no_raw
    intro t4
    apply stageRun_no_raw
    intro t5
    apply stageRun_no_raw
    intro t7
    apply stageRun_no_raw
    intro t8
    apply stageRun_no_raw
    intro t9
    apply stageRun_no_raw
    intro t10
    simp

lemma boundedWaits_create_post (st : SysState) (env : PostEnv) (ci : Int)
    (ti de pr : String) (imgs : Option (List String)) (c : Int) :
    boundedWaits (create_post_on_divar st env ci ti de pr imgs c).trace = true := by
  have hgp := boundedWaits_get_page st c
  have hhv := boundedWaits_has_valid_session (get_page st c).state env.probe
  have hc1 := boundedWaits_catStep env.catFirst
    (env.catTitleCount > 0 && env.catFirst.count > 0) ci 1200
  have hc2 := boundedWaits_catStep env.cat2 (env.catItemCount2 > 0) ci 1500
  have hss := boundedWaits_save_state
    (has_valid_session (get_page st c).state env.probe).state env.savedSize
  have hlit : ∀ tl : List Action, boundedWaits tl = true → ∀ t : List Action,
      boundedWaits t = true → boundedWaits (t ++ tl) = true := by
    intro tl htl t ht
    rw [boundedWaits_append, ht, htl]
    rfl
  unfold create_post_on_divar
  by_cases hres : (has_valid_session (get_page st c).state env.probe).result = false
  · simp only [if_pos hres]
    exact hlit _ hhv _ hgp
  · simp only [if_neg hres]
    apply stageRun_bounded
    · rw [boundedWaits_append, hgp, hhv]
      rfl
    · split_ifs <;> simp [boundedWaits, Action.waitBound]
    intro t1 ht1
    apply stageRun_bounded
    · exact ht1
    · refine hlit _ hc1 _ ?_
      split_ifs <;> simp [boundedWaits, Action.waitBound]
    intro t2 ht2
    apply stageRun_bounded
    · exact ht2
    · split_ifs <;> simp [boundedWaits, Action.waitBound]
    intro t3 ht3
    apply stageRun_bounded
    · exact ht3
    · split_ifs <;> simp [boundedWaits, Action.waitBound]
    intro t4 ht4
    apply stageRun_bounded
    · exact ht4
    · split_ifs <;> simp [boundedWaits, Action.waitBound]
    intro t5 ht5
    apply stageRun_bounded
    · refine hlit _ ?_ _ ht5
      simp [boundedWaits, Action.waitBound]
    · split_ifs <;> simp [boundedWaits, Action.waitBound]
    intro t7 ht7
    apply stageRun_bounded
    · refine hlit _ ?_ _ ht7
      simp [boundedWaits, Action.waitBound]
    · exact hc2
    intro t8 ht8
    apply stageRun_bounded
    · exact ht8
    · split_ifs <;> simp [boundedWaits, Action.waitBound]
    intro t9 ht9
    apply stageRun_bounded
    · exact ht9
    · split_ifs <;> simp [boundedWaits, Action.waitBound]
    intro t10 ht10
    refine hlit _ hss _ ?_
    refine hlit _ ?_ _ ?_
    · simp [boundedWaits, Action.waitBound]
    refine hlit _ ?_ _ ?_
    · split_ifs <;> simp [boundedWaits, Action.waitBound]
    refine hlit _ ?_ _ ht10
    simp [boundedWaits, Action.waitBound]

/-! ## Claim theorems -/

/-- C2: whenever the persisted auth-state file is absent, or exists but is
near-empty (at most 10 bytes, which the presence/size check treats as
absent), `has_valid_session` returns `false` with an empty action trace — no
browser interaction or navigation of any kind — and leaves the state
untouched. -/
theorem hasValidSession_fast_path (st : SysState) (env : ProbeEnv)
    (h : st.fs.stateSize = none ∨ ∃ n, st.fs.stateSize = some n ∧ n ≤ 10) :
    (has_valid_session st env).result = false ∧
    (has_valid_session st env).trace = [] ∧
    (has_valid_session st env).state = st := by
  have hex : state_exists st.fs = false := by
    rcases h with h | ⟨n, hn, hle⟩
    · simp [state_exists, h]
    · simp [state_exists, hn]
      omega
  rw [has_valid_session_no_state st env hex]
  exact ⟨rfl, rfl, rfl⟩

/-- C2 witness: a near-empty (7-byte) state file takes the fast path. -/
theorem hasValidSession_fast_path_witness :
    (has_valid_session (initState ⟨some 7⟩) ⟨false, 0, 0⟩).result = false ∧
    (has_valid_session (initState ⟨some 7⟩) ⟨false, 0, 0⟩).trace = [] ∧
    (has_valid_session (initState ⟨some 7⟩) ⟨false, 0, 0⟩).state = initState ⟨some 7⟩ :=
  hasValidSession_fast_path (initState ⟨some 7⟩) ⟨false, 0, 0⟩
    (Or.inr ⟨7, rfl, by omega⟩)

/-- C1 counterexample: two distinct users (chat ids 1 and 2) obtain pages in
the SAME browsing context (context 0) — the cookie/storage sandbox is shared,
not disjoint, so authentication state is common to all users. -/
theorem getPage_shared_context_counterexample :
    (1 : Int) ≠ 2 ∧
    (pageCtxOf (get_page (get_page (initState ⟨none⟩) 1).state 2).state
        (get_page (initState ⟨none⟩) 1).result = some 0 ∧
      pageCtxOf (get_page (get_page (initState ⟨none⟩) 1).state 2).state
        (get_page (get_page (initState ⟨none⟩) 1).state 2).result = some 0) := by
  refine ⟨by decide, by decide, by decide⟩

/-- C1 amended: there is no per-user browsing context.  The session manager
creates ONE global context on first use and every page `_get_page` returns —
for any two users — lives in that single shared context, so cookie and
authentication state are shared between users; isolation is only at the page
(tab) level. -/
theorem getPage_single_shared_context (fs : FileSys) (c1 c2 : Int) :
    (get_page (get_page (initState fs) c1).state c2).state.context = some 0 ∧
    pageCtxOf (get_page (get_page (initState fs) c1).state c2).state
        (get_page (initState fs) c1).result = some 0 ∧
    pageCtxOf (get_page (get_page (initState fs) c1).state c2).state
        (get_page (get_page (initState fs) c1).state c2).result = some 0 := by
  by_cases hc : c1 = c2 <;>
    simp [get_page, ensure_browser, initState, lookupChat, setChat, pageClosed,
      pageCtxOf, hc] <;> decide

/-- C8: category selection is bounds-checked against the live count at
selection time: any index that is negative or at least the live count (in
particular an index equal to the count) makes `_pick_category_from_list`
raise — an invalid-index error whenever the live list is non-empty — and no
category item is ever clicked, so no silent clamping can occur. -/
theorem pickCategory_out_of_range (env : CatEnv) (idx : Int)
    (hwait : env.waitTimesOut = false)
    (hout : idx < 0 ∨ (env.count : Int) ≤ idx) :
    (∃ e, (pick_category_from_list env idx).1 = .error e) ∧
    (0 < env.count → (pick_category_from_list env idx).1 =
      .error (.runtime ("category_index نامعتبره. بازه: 0.." ++ toString (env.count - 1)))) ∧
    ∀ i, Action.clickNth CATEGORY_ITEM i ∉ (pick_category_from_list env idx).2 := by
  have hb : (idx < 0 || (env.count : Int) ≤ idx) = true := by
    rcases hout with h | h <;> simp [h]
  rcases Nat.eq_zero_or_pos env.count with hz | hpos
  · refine ⟨⟨.runtime "لیست دسته‌ها خالیه.", ?_⟩, ?_, ?_⟩ <;>
      simp [pick_category_from_list, hwait, hz]
  · have hnz : ¬ env.count ≤ 0 := by omega
    refine ⟨⟨.runtime ("category_index نامعتبره. بازه: 0.." ++ toString (env.count - 1)), ?_⟩,
        fun _ => ?_, ?_⟩ <;>
      simp [pick_category_from_list, hwait, hnz, hb]

/-- C8 witness: index 3 against a live count of 3 (index = count) raises the
invalid-index error and clicks nothing. -/
theorem pickCategory_out_of_range_witness :
    (∃ e, (pick_category_from_list ⟨false, 3⟩ 3).1 = .error e) ∧
    (0 < (3 : Nat) → (pick_category_from_list ⟨false, 3⟩ 3).1 =
      .error (.runtime ("category_index نامعتبره. بازه: 0.." ++ toString (3 - 1 : Nat)))) ∧
    ∀ i, Action.clickNth CATEGORY_ITEM i ∉ (pick_category_from_list ⟨false, 3⟩ 3).2 :=
  pickCategory_out_of_range ⟨false, 3⟩ 3 rfl (Or.inr (by decide))

/-- C10: `verify_otp` operates on at most the first six digits of the input:
whatever code text arrives, the string typed into the OTP field is exactly
the first six extracted digits (so an over-long code is silently truncated,
then typed and submitted via the button or the Enter fallback), the call
itself succeeds rather than rejecting the over-long input, and the typed
string never exceeds six characters. -/
theorem verifyOtp_truncates_to_six (st : SysState) (chatId : Int) (code : String)
    (env : OtpEnv) (h : env.otpFieldTimesOut = false) :
    Action.typeText OTP_INPUT (pyTake (normalize_digits code) 6)
        ∈ (verify_otp st chatId code env).trace ∧
    (Action.click SUBMIT_BTN ∈ (verify_otp st chatId code env).trace ∨
      Action.pressKey "Enter" ∈ (verify_otp st chatId code env).trace) ∧
    (∃ b, (verify_otp st chatId code env).result = .ok b) ∧
    (pyTake (normalize_digits code) 6).length ≤ 6 := by
  refine ⟨?_, ?_, ?_, ?_⟩
  · simp [verify_otp, h]
    split <;> simp
  · by_cases he : env.submitEnables
    · left
      simp [verify_otp, h, he]
      split <;> simp [he]
    · right
      simp [verify_otp, h, he]
      split <;> simp [he]
  · simp [verify_otp, h]
    split <;> simp
  · simp only [pyTake, String.length_mk]
    exact le_trans (List.length_take_le 6 (normalize_digits code).data) (by omega)

/-- C10 witness: an eight-digit code is truncated to its first six digits,
typed, submitted, and the call returns a boolean rather than an error. -/
theorem verifyOtp_truncates_to_six_witness :
    Action.typeText OTP_INPUT (pyTake (normalize_digits "12345678") 6)
        ∈ (verify_otp (initState ⟨none⟩) 1 "12345678" ⟨false, true, true, ⟨false, 1, 0⟩, 0⟩).trace ∧
    (Action.click SUBMIT_BTN
        ∈ (verify_otp (initState ⟨none⟩) 1 "12345678" ⟨false, true, true, ⟨false, 1, 0⟩, 0⟩).trace ∨
      Action.pressKey "Enter"
        ∈ (verify_otp (initState ⟨none⟩) 1 "12345678" ⟨false, true, true, ⟨false, 1, 0⟩, 0⟩).trace) ∧
    (∃ b, (verify_otp (initState ⟨none⟩) 1 "12345678" ⟨false, true, true, ⟨false, 1, 0⟩, 0⟩).result
        = .ok b) ∧
    (pyTake (normalize_digits "12345678") 6).length ≤ 6 :=
  verifyOtp_truncates_to_six (initState ⟨none⟩) 1 "12345678" ⟨false, true, true, ⟨false, 1, 0⟩, 0⟩ rfl

/-- C3: provided the OTP field is present (the flow reaches the verification
step), `verify_otp` returns `ok` exactly when the post-submission login probe
reports logged-in: on success it returns `Except.ok true` and persists the
storage state; on a rejected code (or a probe that itself errors) it returns
`Except.ok false` — a value, never an exception — and writes nothing, so when
no state file existed before the call a subsequent `has_valid_session` still
takes the fast path to `false`. -/
theorem verifyOtp_persists_iff_check (st : SysState) (chatId : Int) (code : String)
    (env : OtpEnv) (h : env.otpFieldTimesOut = false) :
    (verify_otp st chatId code env).result =
      .ok (match (is_logged_in env.probe).1 with | .ok b => b | .error _ => false) ∧
    ((match (is_logged_in env.probe).1 with | .ok b => b | .error _ => false) = true →
      (verify_otp st chatId code env).state.fs.stateSize = some env.savedSize ∧
      Action.saveStorageState DIVAR_STATE_PATH ∈ (verify_otp st chatId code env).trace) ∧
    ((match (is_logged_in env.probe).1 with | .ok b => b | .error _ => false) = false →
      (verify_otp st chatId code env).state.fs = st.fs ∧
      (∀ p, Action.saveStorageState p ∉ (verify_otp st chatId code env).trace) ∧
      (state_exists st.fs = false → ∀ env2 : ProbeEnv,
        (has_valid_session (verify_otp st chatId code env).state env2).result = false ∧
        (has_valid_session (verify_otp st chatId code env).state env2).trace = [])) := by
  have hctx := get_page_context_isSome st chatId
  have hfs := get_page_fs st chatId
  rcases hpr : (is_logged_in env.probe) with ⟨res, ptr⟩
  rcases hsome : (get_page st chatId).state.context with _ | ctx
  · rw [hsome] at hctx
    simp at hctx
  · have hok : ∀ b, res = .ok b → b = true →
        verify_otp st chatId code env =
          ⟨.ok true,
            { (get_page st chatId).state with fs := { stateSize := some env.savedSize } },
            ((get_page st chatId).trace ++ [Action.waitForSelector OTP_INPUT 60000,
                .fill OTP_INPUT "", .typeText OTP_INPUT (pyTake (normalize_digits code) 6)]
              ++ [Action.waitForFunction 25000] ++
              (if env.submitEnables then [Action.click SUBMIT_BTN]
                else [Action.pressKey "Enter"])
              ++ [Action.waitForDetached OTP_INPUT 45000]) ++ ptr
              ++ [Action.saveStorageState DIVAR_STATE_PATH]⟩ := by
      intro b hres hb
      simp [verify_otp, h, hpr, hres, hb, save_state, hsome]
    have hnotok :
        (match res with | .ok b => b | .error _ => false) = false →
        verify_otp st chatId code env =
          ⟨.ok false, (get_page st chatId).state,
            ((get_page st chatId).trace ++ [Action.waitForSelector OTP_INPUT 60000,
                .fill OTP_INPUT "", .typeText OTP_INPUT (pyTake (normalize_digits code) 6)]
              ++ [Action.waitForFunction 25000] ++
              (if env.submitEnables then [Action.click SUBMIT_BTN]
                else [Action.pressKey "Enter"])
              ++ [Action.waitForDetached OTP_INPUT 45000]) ++ ptr⟩ := by
      intro hres
      rcases res with e | b
      · simp [verify_otp, h, hpr]
      · simp at hres
        simp [verify_otp, h, hpr, hres]
    rcases res with e | b
    · refine ⟨?_, ?_, ?_⟩
      · simp [hnotok rfl]
      · intro hcontra
        simp at hcontra
      · intro _
        rw [hnotok rfl]
        refine ⟨hfs, ?_, ?_⟩
        · intro p
          have h1 := get_page_no_save st chatId p
          have h2 : Action.saveStorageState p ∉ ptr := by
            have := is_logged_in_no_save env.probe p
            rw [hpr] at this
            exact this
          rcases he : env.submitEnables <;> simp [h1, h2, he]
        · intro hse env2
          have : state_exists (get_page st chatId).state.fs = false := by
            rw [hfs]; exact hse
          rw [has_valid_session_no_state _ env2 this]
          exact ⟨rfl, rfl⟩
    · rcases hb : b with _ | _
      · subst hb
        refine ⟨?_, ?_, ?_⟩
        · simp [hnotok rfl]
        · intro hcontra
          simp at hcontra
        · intro _
          rw [hnotok rfl]
          refine ⟨hfs, ?_, ?_⟩
          · intro p
            have h1 := get_page_no_save st chatId p
            have h2 : Action.saveStorageState p ∉ ptr := by
              have := is_logged_in_no_save env.probe p
              rw [hpr] at this
              exact this
            rcases he : env.submitEnables <;> simp [h1, h2, he]
          · intro hse env2
            have : state_exists (get_page st chatId).state.fs = false := by
              rw [hfs]; exact hse
            rw [has_valid_session_no_state _ env2 this]
            exact ⟨rfl, rfl⟩
      · subst hb
        refine ⟨?_, ?_, ?_⟩
        · simp [hok true rfl rfl]
        · intro _
          rw [hok true rfl rfl]
          constructor
          · rfl
          · simp
        · intro hcontra
          simp at hcontra
  -- end

/-- C3 witness: with no prior state file, a rejected code (the probe still
sees the phone input) returns `Except.ok false`, persists nothing, and
`has_valid_session` afterwards is still `false` with no browser activity. -/
theorem verifyOtp_persists_iff_check_witness :
    (verify_otp (initState ⟨none⟩) 1 "123456" ⟨false, true, true, ⟨false, 1, 0⟩, 777⟩).result =
      .ok (match (is_logged_in (⟨false, 1, 0⟩ : ProbeEnv)).1 with
        | .ok b => b | .error _ => false) ∧
    (verify_otp (initState ⟨none⟩) 1 "123456" ⟨false, true, true, ⟨false, 1, 0⟩, 777⟩).state.fs
      = (⟨none⟩ : FileSys) ∧
    (has_valid_session
      (verify_otp (initState ⟨none⟩) 1 "123456" ⟨false, true, true, ⟨false, 1, 0⟩, 777⟩).state
      ⟨false, 0, 0⟩).result = false := by
  have h := verifyOtp_persists_iff_check (initState ⟨none⟩) 1 "123456"
    ⟨false, true, true, ⟨false, 1, 0⟩, 777⟩ rfl
  refine ⟨h.1, ?_, ?_⟩
  · exact (h.2.2 (by decide)).1
  · exact ((h.2.2 (by decide)).2.2 (by decide) ⟨false, 0, 0⟩).1

/-- C5 counterexample: `start_login` called directly with the non-numeric
phone `"abc"` (which does not reduce to any 11-digit domestic number) raises
no `InvalidInput` at all — it navigates to the login entry route, fills the
phone field with the empty normalization result, submits, and returns
success.  The claim's "fails with InvalidInput and performs no navigation" is
false of `start_login`. -/
theorem startLogin_no_validation_counterexample :
    (start_login (initState ⟨none⟩) 1 "abc" ⟨false, 0, 1, 0, true, true, 0, true⟩).result
        = .ok () ∧
    Action.goto DIVAR_NEW_URL 60000
        ∈ (start_login (initState ⟨none⟩) 1 "abc" ⟨false, 0, 1, 0, true, true, 0, true⟩).trace ∧
    Action.fill PHONE_INPUT ""
        ∈ (start_login (initState ⟨none⟩) 1 "abc" ⟨false, 0, 1, 0, true, true, 0, true⟩).trace := by
  refine ⟨rfl, by decide, by decide⟩

/-- C5 amended: the phone-format validation lives in the chat front-end, not
in `start_login`: for every message whose normalization (digit stripping plus
98→0 prefix rewriting) is not an 11-character string starting with 09, the
front-end phone handler replies with the invalid-number message and never
calls `start_login` — so no browser interaction happens for invalid phones —
while `start_login` itself validates nothing and navigates unconditionally,
whatever phone text it is given. -/
theorem phone_validation_in_front_end (chatId : Int) (text : String)
    (h : pyStartsWith (rewrite98 (normalize_digits (pyStrip text))) "09" = false ∨
         (rewrite98 (normalize_digits (pyStrip text))).length ≠ 11) :
    (handle_phone_message chatId text).2 = none ∧
    (handle_phone_message chatId text).1 = ["❌ شماره معتبر نیست. مثال: 09351234567"] ∧
    ∀ (st : SysState) (c : Int) (phone : String) (env : LoginEnv),
      Action.goto DIVAR_NEW_URL 60000 ∈ (start_login st c phone env).trace := by
  have key : (decide (pyStartsWith (rewrite98 (normalize_digits (pyStrip text))) "09" = false)
      || decide ((rewrite98 (normalize_digits (pyStrip text))).length ≠ 11)) = true := by
    rcases h with hp | hp <;> simp [hp]
  refine ⟨?_, ?_, ?_⟩
  · simp only [handle_phone_message]
    rw [if_pos]
    simpa using key
  · simp only [handle_phone_message]
    rw [if_pos]
    simpa using key
  · intro st c phone env
    simp only [start_login]
    split_ifs <;> simp

/-- C5 witness: the message `"12345"` fails validation in the handler, which
makes no core call; and `start_login` (here on a fresh state with the login
page showing) always navigates. -/
theorem phone_validation_in_front_end_witness :
    (handle_phone_message 1 "12345").2 = none ∧
    Action.goto DIVAR_NEW_URL 60000
      ∈ (start_login (initState ⟨none⟩) 1 "12345" ⟨false, 0, 1, 0, true, true, 0, true⟩).trace :=
  ⟨(phone_validation_in_front_end 1 "12345" (by decide)).1,
    (phone_validation_in_front_end 1 "12345" (by decide)).2.2
      (initState ⟨none⟩) 1 "12345" ⟨false, 0, 1, 0, true, true, 0, true⟩⟩

/-- C6 counterexample: `verify_otp` called directly with the 3-digit code
`"123"` raises no `InvalidInput`: it fills the OTP field with `"123"`,
submits it, and returns `Except.ok false`.  The claim's "fails with
InvalidInput without filling or submitting anything" is false of
`verify_otp`. -/
theorem verifyOtp_short_code_counterexample :
    (verify_otp (initState ⟨none⟩) 1 "123" ⟨false, true, true, ⟨false, 1, 0⟩, 0⟩).result
        = .ok false ∧
    Action.typeText OTP_INPUT "123"
        ∈ (verify_otp (initState ⟨none⟩) 1 "123" ⟨false, true, true, ⟨false, 1, 0⟩, 0⟩).trace ∧
    Action.click SUBMIT_BTN
        ∈ (verify_otp (initState ⟨none⟩) 1 "123" ⟨false, true, true, ⟨false, 1, 0⟩, 0⟩).trace := by
  refine ⟨rfl, by decide, by decide⟩

/-- C6 amended: the six-digit guard lives in the chat front-end, not in
`verify_otp`: for every message whose digit extraction yields fewer than six
digits, the front-end OTP handler replies with the six-digit error message
and never calls `verify_otp`, so nothing is filled or submitted on the page;
`verify_otp` itself types and submits whatever digits it is given. -/
theorem otp_validation_in_front_end (chatId : Int) (text : String)
    (h : (normalize_digits (pyStrip text)).length < 6) :
    (handle_otp_message chatId text).2 = none ∧
    (handle_otp_message chatId text).1 = ["❌ کد باید ۶ رقم باشه."] := by
  have hlen : (pyTake (normalize_digits (pyStrip text)) 6).length ≠ 6 := by
    have hdata : (normalize_digits (pyStrip text)).data.length < 6 := h
    show ((normalize_digits (pyStrip text)).data.take 6).length ≠ 6
    rw [List.length_take]
    omega
  constructor <;> (simp only [handle_otp_message]; rw [if_pos hlen])

/-- C6 witness: the 3-digit message `"123"` is rejected by the handler with
no call into the automation module. -/
theorem otp_validation_in_front_end_witness :
    (handle_otp_message 1 "123").2 = none ∧
    (handle_otp_message 1 "123").1 = ["❌ کد باید ۶ رقم باشه."] :=
  otp_validation_in_front_end 1 "123" (by decide)

/-- C4: for every user, prior state (a persisted state file included) and
page environment, `logout` completes returning `true`; afterwards the
persisted-state artifact no longer exists, `has_valid_session` returns
`false` by the fast path with no browser interaction, and `get_page` for that
user behaves as first use — it launches the browser anew, creates a context
with NO stored state, and opens a fresh page in it. -/
theorem logout_clears_session (st : SysState) (chatId : Int) (env : LogoutEnv)
    (env2 : ProbeEnv) :
    (logout st chatId env).result = true ∧
    (logout st chatId env).state.fs.stateSize = none ∧
    (has_valid_session (logout st chatId env).state env2).result = false ∧
    (has_valid_session (logout st chatId env).state env2).trace = [] ∧
    (get_page (logout st chatId env).state chatId).trace =
      [.launchBrowser, .newContext none, .addCityCookie DIVAR_CITY_SLUG,
        .newPage (logout st chatId env).state.nextId] ∧
    pageCtxOf (get_page (logout st chatId env).state chatId).state
        (get_page (logout st chatId env).state chatId).result
      = some (logout st chatId env).state.nextId := by
  obtain ⟨h1, h2, h3, h4⟩ := logout_final st chatId env
  have hex : state_exists (logout st chatId env).state.fs = false := by
    simp [state_exists, h2]
  have hfast := has_valid_session_no_state (logout st chatId env).state env2 hex
  have hfirst := get_page_first_use (logout st chatId env).state chatId h3 h4 hex
  exact ⟨h1, h2, by rw [hfast], by rw [hfast], hfirst.1, hfirst.2⟩

/-- C7: a listing-creation call with an empty (or missing) image path list —
given a valid session, a successful navigation, and no category page shown
first — fails at stage `upload_image` with the mandatory-image error; a
diagnostic artifact pair (screenshot + markup) named for that stage is
produced, and the surfaced error message embeds the stage name and both
artifact paths. -/
theorem createListing_empty_images_fails (st : SysState) (env : PostEnv)
    (ci : Int) (ti de pr : String) (imgs : Option (List String)) (chatId : Int)
    (himgs : imgs.getD [] = [])
    (hsess : state_exists st.fs = true)
    (hp1 : env.probe.gotoTimesOut = false) (hp2 : env.probe.phoneCount = 0)
    (hp3 : env.probe.otpCount = 0)
    (hgoto : env.gotoTimesOut = false)
    (hcat : env.catTitleCount = 0)
    (hdump : env.dumpOk = true) :
    (create_post_on_divar st env ci ti de pr imgs chatId).result =
      .error (.runtime (stagedMessage "upload_image" "عکس اجباریه؛ image_paths خالیه."
        (DEBUG_FOLDER ++ "/" ++ "upload_image" ++ "_" ++ toString env.dumpTs ++ ".png")
        (DEBUG_FOLDER ++ "/" ++ "upload_image" ++ "_" ++ toString env.dumpTs ++ ".html"))) ∧
    Action.screenshot (DEBUG_FOLDER ++ "/" ++ "upload_image" ++ "_"
        ++ toString env.dumpTs ++ ".png")
      ∈ (create_post_on_divar st env ci ti de pr imgs chatId).trace ∧
    Action.savePageHtml (DEBUG_FOLDER ++ "/" ++ "upload_image" ++ "_"
        ++ toString env.dumpTs ++ ".html")
      ∈ (create_post_on_divar st env ci ti de pr imgs chatId).trace ∧
    "upload_image".toList <:+:
      (stagedMessage "upload_image" "عکس اجباریه؛ image_paths خالیه."
        (DEBUG_FOLDER ++ "/" ++ "upload_image" ++ "_" ++ toString env.dumpTs ++ ".png")
        (DEBUG_FOLDER ++ "/" ++ "upload_image" ++ "_" ++ toString env.dumpTs ++ ".html")).toList ∧
    (DEBUG_FOLDER ++ "/" ++ "upload_image" ++ "_" ++ toString env.dumpTs ++ ".png").toList <:+:
      (stagedMessage "upload_image" "عکس اجباریه؛ image_paths خالیه."
        (DEBUG_FOLDER ++ "/" ++ "upload_image" ++ "_" ++ toString env.dumpTs ++ ".png")
        (DEBUG_FOLDER ++ "/" ++ "upload_image" ++ "_" ++ toString env.dumpTs ++ ".html")).toList ∧
    (DEBUG_FOLDER ++ "/" ++ "upload_image" ++ "_" ++ toString env.dumpTs ++ ".html").toList <:+:
      (stagedMessage "upload_image" "عکس اجباریه؛ image_paths خالیه."
        (DEBUG_FOLDER ++ "/" ++ "upload_image" ++ "_" ++ toString env.dumpTs ++ ".png")
        (DEBUG_FOLDER ++ "/" ++ "upload_image" ++ "_" ++ toString env.dumpTs ++ ".html")).toList := by
  have hfs := get_page_fs st chatId
  have hse : state_exists (get_page st chatId).state.fs = true := by
    rw [hfs]
    exact hsess
  have hil := is_logged_in_ok_true env.probe hp1 hp2 hp3
  have hvres : (has_valid_session (get_page st chatId).state env.probe).result = true := by
    simp [has_valid_session, hse, hil]
  have hshown : (env.catTitleCount > 0 && env.catFirst.count > 0) = false := by
    simp [hcat]
  have hembed := stagedMessage_embeds "upload_image" "عکس اجباریه؛ image_paths خالیه."
    (DEBUG_FOLDER ++ "/" ++ "upload_image" ++ "_" ++ toString env.dumpTs ++ ".png")
    (DEBUG_FOLDER ++ "/" ++ "upload_image" ++ "_" ++ toString env.dumpTs ++ ".html")
  refine ⟨?_, ?_, ?_, hembed.1, hembed.2.1, hembed.2.2⟩ <;>
    simp [create_post_on_divar, stageRun, hvres, hgoto, hshown, catStep, himgs,
      pipelineFail, debug_dump, hdump, PyError.text, fmtOpt]

/-- C7 witness: a concrete call with session valid, navigation fine, no
category page first, and no images: it fails with the staged upload_image
message and the artifact pair appears in the trace. -/
theorem createListing_empty_images_fails_witness :
    (create_post_on_divar (initState ⟨some 2000⟩)
        ⟨⟨false, 0, 0⟩, false, 0, ⟨false, 0⟩, true, true, true, true, 0, ⟨false, 0⟩,
          true, 0, 1, 900, 42, true⟩ 0 "t" "d" "100" none 1).result =
      .error (.runtime (stagedMessage "upload_image" "عکس اجباریه؛ image_paths خالیه."
        (DEBUG_FOLDER ++ "/" ++ "upload_image" ++ "_" ++ toString (42 : Nat) ++ ".png")
        (DEBUG_FOLDER ++ "/" ++ "upload_image" ++ "_" ++ toString (42 : Nat) ++ ".html"))) ∧
    Action.screenshot (DEBUG_FOLDER ++ "/" ++ "upload_image" ++ "_"
        ++ toString (42 : Nat) ++ ".png")
      ∈ (create_post_on_divar (initState ⟨some 2000⟩)
        ⟨⟨false, 0, 0⟩, false, 0, ⟨false, 0⟩, true, true, true, true, 0, ⟨false, 0⟩,
          true, 0, 1, 900, 42, true⟩ 0 "t" "d" "100" none 1).trace ∧
    Action.savePageHtml (DEBUG_FOLDER ++ "/" ++ "upload_image" ++ "_"
        ++ toString (42 : Nat) ++ ".html")
      ∈ (create_post_on_divar (initState ⟨some 2000⟩)
        ⟨⟨false, 0, 0⟩, false, 0, ⟨false, 0⟩, true, true, true, true, 0, ⟨false, 0⟩,
          true, 0, 1, 900, 42, true⟩ 0 "t" "d" "100" none 1).trace :=
  ⟨(createListing_empty_images_fails (initState ⟨some 2000⟩)
      ⟨⟨false, 0, 0⟩, false, 0, ⟨false, 0⟩, true, true, true, true, 0, ⟨false, 0⟩,
        true, 0, 1, 900, 42, true⟩ 0 "t" "d" "100" none 1
      rfl rfl rfl rfl rfl rfl rfl rfl).1,
    (createListing_empty_images_fails (initState ⟨some 2000⟩)
      ⟨⟨false, 0, 0⟩, false, 0, ⟨false, 0⟩, true, true, true, true, 0, ⟨false, 0⟩,
        true, 0, 1, 900, 42, true⟩ 0 "t" "d" "100" none 1
      rfl rfl rfl rfl rfl rfl rfl rfl).2.1,
    (createListing_empty_images_fails (initState ⟨some 2000⟩)
      ⟨⟨false, 0, 0⟩, false, 0, ⟨false, 0⟩, true, true, true, true, 0, ⟨false, 0⟩,
        true, 0, 1, 900, 42, true⟩ 0 "t" "d" "100" none 1
      rfl rfl rfl rfl rfl rfl rfl rfl).2.2.1⟩

/-- C9 counterexample: in `start_login`, when the 60 s wait for the OTP field
to appear expires after submitting the phone, the raw platform timeout error
(`PlaywrightTimeoutError`, not a typed failure) propagates to the caller:
with the login page shown and the OTP field never appearing, the call returns
exactly the raw timeout.  This refutes "a raw platform timeout error is never
propagated from any operation". -/
theorem raw_timeout_escapes_counterexample :
    (start_login (initState ⟨none⟩) 1 "09351234567"
        ⟨false, 0, 1, 0, true, false, 0, true⟩).result = .error (.timeout 60000) ∧
    PyError.isTimeout (.timeout 60000) = true := by
  exact ⟨rfl, rfl⟩

/-- C9 amended: every navigation / DOM wait in the login flows, the session
check and the listing pipeline carries an explicit positive timeout of at
most 60 s (no unbounded wait), and the listing pipeline translates every
timeout into a staged `RuntimeError` (never a raw timeout); within the login
flows, the submit-enable wait and the OTP-detach wait absorb their timeouts —
`verify_otp` still returns a boolean and `start_login` still succeeds when
the OTP field appears, whatever those waits did — but the waits for the OTP
field to appear (and navigations) in `start_login`/`verify_otp` propagate raw
platform timeouts. -/
theorem waits_bounded_and_timeouts_partially_translated (st : SysState) (c : Int)
    (phone code : String) (envL : LoginEnv) (envO : OtpEnv) (envP : ProbeEnv)
    (envPost : PostEnv) (ci : Int) (ti de pr : String) (imgs : Option (List String))
    (ms : Nat) :
    boundedWaits (start_login st c phone envL).trace = true ∧
    boundedWaits (verify_otp st c code envO).trace = true ∧
    boundedWaits (has_valid_session st envP).trace = true ∧
    boundedWaits (create_post_on_divar st envPost ci ti de pr imgs c).trace = true ∧
    (create_post_on_divar st envPost ci ti de pr imgs c).result ≠
      .error (.timeout ms) ∧
    (envO.otpFieldTimesOut = false →
      ∃ b, (verify_otp st c code envO).result = Except.ok b) ∧
    (envL.gotoTimesOut = false → 0 < envL.phoneCount → envL.otpAppears = true →
      (start_login st c phone envL).result = Except.ok ()) := by
  refine ⟨boundedWaits_start_login st c phone envL,
    boundedWaits_verify_otp st c code envO,
    boundedWaits_has_valid_session st envP,
    boundedWaits_create_post st envPost ci ti de pr imgs c,
    create_post_no_raw_timeout st envPost ci ti de pr imgs c ms, ?_, ?_⟩
  · intro h
    rcases hpr : is_logged_in envO.probe with ⟨res, ptr⟩
    unfold verify_otp
    simp only [hpr]
    split_ifs <;> simp_all
  · intro hg hp ho
    have hpne : ¬ envL.phoneCount = 0 := by omega
    unfold start_login
    by_cases hot : envL.otpCount > 0 <;>
      simp [hg, hot, hp, ho, hpne]

/-- C9 amended witness: at concrete inputs with a disabled submit button (the
15 s enable wait times out and is absorbed) `start_login` still succeeds, and
with the OTP field never detaching (the 45 s wait times out and is absorbed)
`verify_otp` still returns a boolean; all waits in those runs are bounded. -/
theorem waits_bounded_witness :
    boundedWaits (start_login (initState ⟨none⟩) 1 "09351234567"
      ⟨false, 0, 1, 0, false, true, 0, true⟩).trace = true ∧
    (∃ b, (verify_otp (initState ⟨none⟩) 1 "123456"
      ⟨false, true, false, ⟨false, 1, 0⟩, 0⟩).result = Except.ok b) ∧
    (start_login (initState ⟨none⟩) 1 "09351234567"
      ⟨false, 0, 1, 0, false, true, 0, true⟩).result = Except.ok () :=
  ⟨(waits_bounded_and_timeouts_partially_translated (initState ⟨none⟩) 1 "09351234567"
      "123456" ⟨false, 0, 1, 0, false, true, 0, true⟩ ⟨false, true, false, ⟨false, 1, 0⟩, 0⟩
      ⟨false, 0, 0⟩ ⟨⟨false, 0, 0⟩, false, 0, ⟨false, 0⟩, true, true, true, true, 0,
        ⟨false, 0⟩, true, 0, 1, 0, 0, true⟩ 0 "t" "d" "p" none 0).1,
    (waits_bounded_and_timeouts_partially_translated (initState ⟨none⟩) 1 "09351234567"
      "123456" ⟨false, 0, 1, 0, false, true, 0, true⟩ ⟨false, true, false, ⟨false, 1, 0⟩, 0⟩
      ⟨false, 0, 0⟩ ⟨⟨false, 0, 0⟩, false, 0, ⟨false, 0⟩, true, true, true, true, 0,
        ⟨false, 0⟩, true, 0, 1, 0, 0, true⟩ 0 "t" "d" "p" none 0).2.2.2.2.2.1 rfl,
    (waits_bounded_and_timeouts_partially_translated (initState ⟨none⟩) 1 "09351234567"
      "123456" ⟨false, 0, 1, 0, false, true, 0, true⟩ ⟨false, true, false, ⟨false, 1, 0⟩, 0⟩
      ⟨false, 0, 0⟩ ⟨⟨false, 0, 0⟩, false, 0, ⟨false, 0⟩, true, true, true, true, 0,
        ⟨false, 0⟩, true, 0, 1, 0, 0, true⟩ 0 "t" "d" "p" none 0).2.2.2.2.2.2 rfl
      (by decide) rfl⟩

end Divar
